import Mathlib

/-
  Verification of the `expect` assertion library (Rust).

  Shallow embedding of:
    - src/matchers.rs            (EqualMatcher, dialect A)
    - src/matchers/collection.rs (ContainMatcher, BeEmptyMatcher, Collection trait
                                  and its adapters for arrays of length 0..=256,
                                  Vec, VecDeque, LinkedList, HashSet, BTreeSet)
    - src/matchers/be_some.rs    (SomeMatcher, dialect B)
    - src/matchers/be_none.rs    (NoneMatcher, dialect A)
  and of the expectation evaluator (expect / Expectation::to / Expectation::not_to)
  which lives in the crate root and is modelled from the spec where noted.

  Rust's `{:?}` Debug formatting is modelled by explicit debug-rendering
  functions passed wherever the Rust impl requires a `std::fmt::Debug` bound.
  Rust's `==` between a subject type A and an expected type E
  (`A: PartialEq<E>`) is modelled by an explicit comparison function
  `A → E → Bool`; for homogeneous comparisons we instantiate it with
  decidable propositional equality.
-/

namespace Expect

/-! ## Debug rendering (Rust `{:?}`) -/

/-- Escaping of a single character as Rust's Debug formatting of strings does
for the common escapes (quote, backslash, newline, tab, carriage return). -/
def escapeChar (c : Char) : String :=
  if c = '"' then "\\\""
  else if c = '\\' then "\\\\"
  else if c = '\n' then "\\n"
  else if c = '\t' then "\\t"
  else if c = '\r' then "\\r"
  else String.singleton c

/-- Rust `{:?}` for string values: double quotes around the escaped content. -/
def debugStr (s : String) : String :=
  "\"" ++ String.join (s.data.map escapeChar) ++ "\""

/-- Rust `{:?}` for integers. -/
def debugInt (n : Int) : String := toString n

/-- Rust `{:?}` for sequence containers: `[a, b, c]`. -/
def debugList {T : Type} (dbg : T → String) (l : List T) : String :=
  "[" ++ String.intercalate ", " (l.map dbg) ++ "]"

/-- Rust `{:?}` for `Option`: `Some(x)` or `None`. -/
def debugOption {T : Type} (dbg : T → String) : Option T → String
  | some x => "Some(" ++ dbg x ++ ")"
  | none => "None"

/-! ## The `Collection` trait (src/matchers/collection.rs, lines 96-99) -/

/-- The `Collection<T>` trait: a membership test and an emptiness test.
`V` is the container type implementing the trait. -/
structure Collection (V T : Type) where
  contains_element : V → T → Bool
  empty : V → Bool

/-- Model of a Rust fixed-length array `[T; n]`: a list of exactly `n`
elements. -/
abbrev ArrayN (T : Type) (n : Nat) : Type := { l : List T // l.length = n }

/-- The `array!` macro expansion (collection.rs lines 101-132): the
`Collection` impl for `[T; N]` exists exactly for `N` in `0..=256`; hence the
hypothesis bounding `n`. `contains` on a Rust slice is a linear scan with
`==`; `is_empty` tests `len() == 0`. -/
def arrayCollection (T : Type) [DecidableEq T] (n : Nat) (_h : n ≤ 256) :
    Collection (ArrayN T n) T where
  contains_element v e := v.val.contains e
  empty v := v.val.isEmpty

/-- `Collection` impl for `Vec<T>` (collection.rs lines 134-142). -/
def vecCollection (T : Type) [DecidableEq T] : Collection (List T) T where
  contains_element v e := v.contains e
  empty v := v.isEmpty

/-- `Collection` impl for `VecDeque<T>` (collection.rs lines 144-152); a
deque is logically a sequence, modelled as a list. -/
def vecDequeCollection (T : Type) [DecidableEq T] : Collection (List T) T where
  contains_element v e := v.contains e
  empty v := v.isEmpty

/-- `Collection` impl for `LinkedList<T>` (collection.rs lines 154-162). -/
def linkedListCollection (T : Type) [DecidableEq T] : Collection (List T) T where
  contains_element v e := v.contains e
  empty v := v.isEmpty

/-- Model of `HashSet<T>`: a duplicate-free list of elements. -/
abbrev HashSetM (T : Type) : Type := { l : List T // l.Nodup }

/-- `Collection` impl for `HashSet<T>` (collection.rs lines 164-172);
`HashSet::contains` is extensionally membership among the elements. -/
def hashSetCollection (T : Type) [DecidableEq T] : Collection (HashSetM T) T where
  contains_element v e := v.val.contains e
  empty v := v.val.isEmpty

/-- Model of `BTreeSet<T>`: a strictly sorted list of elements. -/
abbrev BTreeSetM (T : Type) [LinearOrder T] : Type :=
  { l : List T // l.Sorted (· < ·) }

/-- `Collection` impl for `BTreeSet<T>` (collection.rs lines 174-182);
`BTreeSet::contains` is extensionally membership among the elements. -/
def btreeSetCollection (T : Type) [LinearOrder T] :
    Collection (BTreeSetM T) T where
  contains_element v e := v.val.contains e
  empty v := v.val.isEmpty

/-! ## The equal matcher (src/matchers.rs, lines 18-44, dialect A) -/

/-- `EqualMatcher<T>`: captures the expected value. -/
structure EqualMatcher (E : Type) where
  expected : E

/-- `equal(expected)` factory (matchers.rs line 18). -/
def equal {E : Type} (expected : E) : EqualMatcher E :=
  { expected := expected }

/-- `EqualMatcher::match_value` (matchers.rs lines 27-29):
`actual == &self.expected`. The Rust bound `A: PartialEq<E>` is the
comparison function `q`. -/
def EqualMatcher.match_value {E A : Type} (q : A → E → Bool)
    (m : EqualMatcher E) (actual : A) : Bool :=
  q actual m.expected

/-- `EqualMatcher::failure_message` (matchers.rs lines 31-36). -/
def EqualMatcher.failure_message {E A : Type} (dbgA : A → String)
    (dbgE : E → String) (m : EqualMatcher E) (actual : A) : String :=
  "\tExpected:\n\t\t" ++ dbgA actual ++ "\n\tto equal:\n\t\t" ++ dbgE m.expected

/-- `EqualMatcher::negated_failure_message` (matchers.rs lines 38-43). -/
def EqualMatcher.negated_failure_message {E A : Type} (dbgA : A → String)
    (dbgE : E → String) (m : EqualMatcher E) (actual : A) : String :=
  "\tExpected:\n\t\t" ++ dbgA actual ++ "\n\tnot to equal:\n\t\t" ++
    dbgE m.expected

/-! ## The contain matcher (collection.rs, lines 24-52, dialect A) -/

/-- `ContainMatcher<T>`: captures the element searched for. -/
structure ContainMatcher (T : Type) where
  element : T

/-- `contain(element)` factory (collection.rs line 24). -/
def contain {T : Type} (element : T) : ContainMatcher T :=
  { element := element }

/-- `ContainMatcher::match_value` (collection.rs lines 35-37):
`collection.contains_element(&self.element)`, dispatched through the
`Collection` impl `c`. -/
def ContainMatcher.match_value {T V : Type} (c : Collection V T)
    (m : ContainMatcher T) (collection : V) : Bool :=
  c.contains_element collection m.element

/-- `ContainMatcher::failure_message` (collection.rs lines 39-44). -/
def ContainMatcher.failure_message {T V : Type} (dbgV : V → String)
    (dbgT : T → String) (m : ContainMatcher T) (collection : V) : String :=
  "\tExpected:\n\t\t" ++ dbgV collection ++ "\n\tto contain:\n\t\t" ++
    dbgT m.element

/-- `ContainMatcher::negated_failure_message` (collection.rs lines 46-51). -/
def ContainMatcher.negated_failure_message {T V : Type} (dbgV : V → String)
    (dbgT : T → String) (m : ContainMatcher T) (collection : V) : String :=
  "\tExpected:\n\t\t" ++ dbgV collection ++ "\n\tnot to contain:\n\t\t" ++
    dbgT m.element

/-! ## The be_empty matcher (collection.rs, lines 72-94, dialect A) -/

/-- `BeEmptyMatcher<T>`: carries only `PhantomData<T>`, so no data at all. -/
structure BeEmptyMatcher where

/-- `be_empty()` factory (collection.rs line 72). -/
def be_empty : BeEmptyMatcher := {}

/-- `BeEmptyMatcher::match_value` (collection.rs lines 83-85):
`collection.empty()`. -/
def BeEmptyMatcher.match_value {T V : Type} (c : Collection V T)
    (_m : BeEmptyMatcher) (collection : V) : Bool :=
  c.empty collection

/-- `BeEmptyMatcher::failure_message` (collection.rs lines 87-89). -/
def BeEmptyMatcher.failure_message {V : Type} (dbgV : V → String)
    (_m : BeEmptyMatcher) (collection : V) : String :=
  "\tExpected:\n\t\t" ++ dbgV collection ++ "\n\tto be empty"

/-- `BeEmptyMatcher::negated_failure_message` (collection.rs lines 91-93). -/
def BeEmptyMatcher.negated_failure_message {V : Type} (dbgV : V → String)
    (_m : BeEmptyMatcher) (collection : V) : String :=
  "\tExpected:\n\t\t" ++ dbgV collection ++ "\n\tnot to be empty"

/-! ## The Match outcome type (dialect B) -/

/-- Modelled from the spec: the dialect-B outcome type (`crate::Match`) lives
in the crate root, which is not among the provided sources. The spec calls its
cases `Holds(messageForNegatedFailure)` and `DoesNotHold(messageForPositiveFailure)`;
src/matchers/be_some.rs spells them `Match::Matched(msg)` and
`Match::NotMatched(msg)`, which we follow. -/
inductive Match where
  | Matched (message : String)
  | NotMatched (message : String)
deriving DecidableEq

/-- Whether a dialect-B outcome conveys that the matcher holds. -/
def Match.isMatched : Match → Bool
  | Match.Matched _ => true
  | Match.NotMatched _ => false

/-! ## The be_some matcher (src/matchers/be_some.rs, dialect B) -/

/-- `SomeMatcher`: a unit struct. -/
structure SomeMatcher where

/-- `be_some()` factory (be_some.rs line 4). -/
def be_some : SomeMatcher := {}

/-- `SomeMatcher::match_value` (be_some.rs lines 11-17): returns
`Matched(format!("expected {:?} not to be a Some", actual))` when the subject
is a `Some`, and `NotMatched("expected None to be a Some")` otherwise. -/
def SomeMatcher.match_value {T : Type} (dbg : Option T → String)
    (_m : SomeMatcher) (actual : Option T) : Match :=
  if actual.isSome then
    Match.Matched ("expected " ++ dbg actual ++ " not to be a Some")
  else
    Match.NotMatched "expected None to be a Some"

/-! ## The be_none matcher (src/matchers/be_none.rs, dialect A) -/

/-- `NoneMatcher`: a unit struct. -/
structure NoneMatcher where

/-- `be_none()` factory (be_none.rs line 3). -/
def be_none : NoneMatcher := {}

/-- `NoneMatcher::match_value` (be_none.rs lines 10-12): `actual.is_none()`. -/
def NoneMatcher.match_value {T : Type} (_m : NoneMatcher)
    (actual : Option T) : Bool :=
  actual.isNone

/-- `NoneMatcher::failure_message` (be_none.rs lines 14-16). -/
def NoneMatcher.failure_message {T : Type} (dbg : Option T → String)
    (_m : NoneMatcher) (actual : Option T) : String :=
  "\tExpected:\n\t\t" ++ dbg actual ++ "\n\tto be None"

/-- `NoneMatcher::negated_failure_message` (be_none.rs lines 18-20). -/
def NoneMatcher.negated_failure_message {T : Type} (dbg : Option T → String)
    (_m : NoneMatcher) (actual : Option T) : String :=
  "\tExpected:\n\t\t" ++ dbg actual ++ "\n\tnot to be None"

/-! ## The expectation evaluator (crate root, modelled from the spec) -/

/-- Outcome of one `to`/`not_to` call: silent success, or a fatal assertion
failure carrying a message (Rust: a panic aborting the current test). -/
inductive AssertionResult where
  | pass
  | fail (message : String)
deriving DecidableEq

/-- Whether an assertion outcome is a silent success. -/
def AssertionResult.isPass : AssertionResult → Bool
  | AssertionResult.pass => true
  | AssertionResult.fail _ => false

/-- A dialect-A matcher bundled behind the protocol: the boolean predicate
plus the two independently computed message functions. -/
structure MatcherA (A : Type) where
  match_value : A → Bool
  failure_message : A → String
  negated_failure_message : A → String

/-- Modelled from the spec: `Expectation` (crate root, not among the provided
sources) holds a read-only reference to the subject. -/
structure Expectation (A : Type) where
  subject : A

/-- Modelled from the spec: `expect(subject)` wraps the subject. -/
def expect {A : Type} (subject : A) : Expectation A :=
  { subject := subject }

/-- Modelled from the spec: `Expectation::to` for dialect A fails with
`failure_message(actual)` when `match_value` is false, else succeeds
silently. -/
def Expectation.to {A : Type} (e : Expectation A) (m : MatcherA A) :
    AssertionResult :=
  if m.match_value e.subject then AssertionResult.pass
  else AssertionResult.fail (m.failure_message e.subject)

/-- Modelled from the spec: `Expectation::not_to` for dialect A fails with
`negated_failure_message(actual)` when `match_value` is true, else succeeds
silently. -/
def Expectation.not_to {A : Type} (e : Expectation A) (m : MatcherA A) :
    AssertionResult :=
  if m.match_value e.subject then
    AssertionResult.fail (m.negated_failure_message e.subject)
  else AssertionResult.pass

/-- Modelled from the spec: `Expectation::to` for dialect B fails with the
`NotMatched` message when the outcome is `NotMatched`, else succeeds. A
dialect-B matcher is its single `match_value` operation `A → Match`. -/
def Expectation.toB {A : Type} (e : Expectation A) (m : A → Match) :
    AssertionResult :=
  match m e.subject with
  | Match.Matched _ => AssertionResult.pass
  | Match.NotMatched msg => AssertionResult.fail msg

/-- Modelled from the spec: `Expectation::not_to` for dialect B fails with the
`Matched` message when the outcome is `Matched`, else succeeds. -/
def Expectation.not_toB {A : Type} (e : Expectation A) (m : A → Match) :
    AssertionResult :=
  match m e.subject with
  | Match.Matched msg => AssertionResult.fail msg
  | Match.NotMatched _ => AssertionResult.pass

/-! ## Spec-side definitions for the message-template claims -/

/-- The spec's dialect-A positive-branch failure template
`"\tExpected:\n\t\t<actual>\n\tto <verb-phrase>:\n\t\t<expected>"`,
written from the spec's words for comparison against the source's
message functions. -/
def msgTemplate (actual verb expected : String) : String :=
  "\tExpected:\n\t\t" ++ actual ++ "\n\tto " ++ verb ++ ":\n\t\t" ++ expected

/-- The spec's dialect-A negated-branch failure template
`"\tExpected:\n\t\t<actual>\n\tnot to <verb-phrase>:\n\t\t<expected>"`. -/
def negatedMsgTemplate (actual verb expected : String) : String :=
  "\tExpected:\n\t\t" ++ actual ++ "\n\tnot to " ++ verb ++ ":\n\t\t" ++
    expected

/-- The positive-branch template actually used by the expected-value-free
matchers (`be_empty`, `be_none`): no trailing colon-plus-expected block. -/
def msgTemplateNoExpected (actual verb : String) : String :=
  "\tExpected:\n\t\t" ++ actual ++ "\n\tto " ++ verb

/-- The negated-branch template actually used by the expected-value-free
matchers (`be_empty`, `be_none`). -/
def negatedMsgTemplateNoExpected (actual verb : String) : String :=
  "\tExpected:\n\t\t" ++ actual ++ "\n\tnot to " ++ verb

/-- Number of colon characters in a string; used to separate the source's
expected-value-free messages from the spec's two-colon template. -/
def colonCount (s : String) : Nat := s.data.count ':'

/-! ## Cross-type comparison material for the heterogeneous equal claim -/

/-- Model of a Rust `&str` expected value as a type distinct from the owned
`String` subject type. -/
structure StrSlice where
  s : String

/-- The cross-type comparison `String: PartialEq<StrSlice>`: an owned string
equals a slice when their characters agree. -/
def strEqSlice (a : String) (e : StrSlice) : Bool := a == e.s

/-! ## Claim theorems -/

/-- Claim C1: the matcher built by `equal e` matches subject `a` iff `a`
equals `e` under the subject type's own equality comparison; in particular
`equal a` always matches subject `a` itself. -/
theorem equal_matches_iff_eq {A : Type} [DecidableEq A] (a e : A) :
    (EqualMatcher.match_value (fun x y => decide (x = y)) (equal e) a = true
      ↔ a = e)
    ∧ EqualMatcher.match_value (fun x y => decide (x = y)) (equal a) a
        = true := by
  refine ⟨?_, ?_⟩ <;> simp [EqualMatcher.match_value, equal]

/-- Claim C10: `equal` supports heterogeneous comparison: for any subject
type `A`, expected type `E` and cross-type comparison `q` (Rust's
`A: PartialEq<E>`), `equal e` matches `a` iff `q a e`; concretely, an
expected string slice matches an equal owned-string subject. -/
theorem equal_matches_heterogeneous {A E : Type} (q : A → E → Bool)
    (a : A) (e : E) :
    EqualMatcher.match_value q (equal e) a = q a e
    ∧ EqualMatcher.match_value strEqSlice (equal (StrSlice.mk "foo")) "foo"
        = true :=
  ⟨rfl, by decide⟩

/-- Claim C4: `be_some` matches an optional subject iff it carries a value,
`be_none` matches iff it carries none, and for every subject exactly one of
the two matches (the last conjunct states `be_some`'s outcome is the Boolean
complement of `be_none`'s). -/
theorem be_some_be_none_complementary {T : Type} (d : Option T → String)
    (o : Option T) :
    ((SomeMatcher.match_value d be_some o).isMatched = o.isSome)
    ∧ (NoneMatcher.match_value be_none o = o.isNone)
    ∧ ((SomeMatcher.match_value d be_some o).isMatched
        = !(NoneMatcher.match_value be_none o)) := by
  cases o <;>
    simp [SomeMatcher.match_value, NoneMatcher.match_value, Match.isMatched,
      be_some, be_none]

/-- Claim C7: complement law of the evaluator, in both dialects: `not_to`
fails exactly when `to` would have succeeded, and succeeds exactly when `to`
would have failed. -/
theorem not_to_complements_to {A : Type} (a : A) (m : MatcherA A)
    (f : A → Match) :
    (((expect a).not_to m).isPass = !((expect a).to m).isPass)
    ∧ (((expect a).not_toB f).isPass = !((expect a).toB f).isPass) := by
  constructor
  · cases h : m.match_value a <;>
      simp [Expectation.to, Expectation.not_to, expect, AssertionResult.isPass,
        h]
  · cases h : f a <;>
      simp [Expectation.toB, Expectation.not_toB, expect,
        AssertionResult.isPass, h]

/-- Claim C8: every matcher's evaluation is deterministic: evaluating the same
matcher twice on the same subject yields the same outcome. (The Rust
`match_value` signatures take the matcher and subject by shared reference with
no interior mutability, which the embedding reflects as pure functions, so
evaluation cannot mutate either.) -/
theorem matchers_deterministic {A E T V : Type} (q : A → E → Bool)
    (a : A) (e : E) (c : Collection V T) (x : T) (v : V)
    (d : Option T → String) (o : Option T) :
    (EqualMatcher.match_value q (equal e) a
      = EqualMatcher.match_value q (equal e) a)
    ∧ (ContainMatcher.match_value c (contain x) v
      = ContainMatcher.match_value c (contain x) v)
    ∧ (BeEmptyMatcher.match_value c be_empty v
      = BeEmptyMatcher.match_value c be_empty v)
    ∧ (SomeMatcher.match_value d be_some o
      = SomeMatcher.match_value d be_some o)
    ∧ (NoneMatcher.match_value be_none o
      = NoneMatcher.match_value be_none o) :=
  ⟨rfl, rfl, rfl, rfl, rfl⟩

/-- Helper: a list's `contains` agrees with membership. -/
theorem list_contains_iff {T : Type} [DecidableEq T] (e : T) (l : List T) :
    l.contains e = true ↔ e ∈ l := by
  simp

/-- Helper: a list's `isEmpty` agrees with having length zero, and an empty
list contains no element. -/
theorem list_empty_helper {T : Type} [DecidableEq T] (e : T) (l : List T) :
    (l.isEmpty = true ↔ l.length = 0)
    ∧ (l.isEmpty = true → l.contains e = false) := by
  cases l <;> simp

/-- Claim C2: for every supported container kind (arrays of length 0..=256,
Vec, VecDeque, LinkedList, HashSet, BTreeSet), `contain e` matches a container
iff `e` occurs among its elements, uniformly across kinds. -/
theorem contain_matches_iff_mem {T S : Type} [DecidableEq T] [LinearOrder S]
    (e : T) (x : S) :
    (∀ (n : Nat) (h : n ≤ 256) (v : ArrayN T n),
        ContainMatcher.match_value (arrayCollection T n h) (contain e) v = true
          ↔ e ∈ v.val)
    ∧ (∀ v : List T,
        ContainMatcher.match_value (vecCollection T) (contain e) v = true
          ↔ e ∈ v)
    ∧ (∀ v : List T,
        ContainMatcher.match_value (vecDequeCollection T) (contain e) v = true
          ↔ e ∈ v)
    ∧ (∀ v : List T,
        ContainMatcher.match_value (linkedListCollection T) (contain e) v = true
          ↔ e ∈ v)
    ∧ (∀ v : HashSetM T,
        ContainMatcher.match_value (hashSetCollection T) (contain e) v = true
          ↔ e ∈ v.val)
    ∧ (∀ v : BTreeSetM S,
        ContainMatcher.match_value (btreeSetCollection S) (contain x) v = true
          ↔ x ∈ v.val) :=
  ⟨fun _n _h v => list_contains_iff e v.val,
   fun v => list_contains_iff e v,
   fun v => list_contains_iff e v,
   fun v => list_contains_iff e v,
   fun v => list_contains_iff e v.val,
   fun v => list_contains_iff x v.val⟩

/-- Witness for C2: the 3-element array `[1, 2, 3]` contains `2`. -/
theorem contain_matches_iff_mem_witness :
    ContainMatcher.match_value (arrayCollection Int 3 (by decide)) (contain 2)
        ⟨[1, 2, 3], rfl⟩ = true ↔ (2 : Int) ∈ [1, 2, 3] :=
  (contain_matches_iff_mem (S := Int) 2 2).1 3 (by decide) ⟨[1, 2, 3], rfl⟩

/-- Claim C3: for every supported container kind, `be_empty` matches a
container iff it has zero elements, and whenever `be_empty` matches,
`contain e` does not match for any element `e`. -/
theorem be_empty_iff_no_elements {T S : Type} [DecidableEq T] [LinearOrder S]
    (e : T) (x : S) :
    (∀ (n : Nat) (h : n ≤ 256) (v : ArrayN T n),
        (BeEmptyMatcher.match_value (arrayCollection T n h) be_empty v = true
          ↔ v.val.length = 0)
        ∧ (BeEmptyMatcher.match_value (arrayCollection T n h) be_empty v = true
            → ContainMatcher.match_value (arrayCollection T n h) (contain e) v
                = false))
    ∧ (∀ v : List T,
        (BeEmptyMatcher.match_value (vecCollection T) be_empty v = true
          ↔ v.length = 0)
        ∧ (BeEmptyMatcher.match_value (vecCollection T) be_empty v = true
            → ContainMatcher.match_value (vecCollection T) (contain e) v
                = false))
    ∧ (∀ v : List T,
        (BeEmptyMatcher.match_value (vecDequeCollection T) be_empty v = true
          ↔ v.length = 0)
        ∧ (BeEmptyMatcher.match_value (vecDequeCollection T) be_empty v = true
            → ContainMatcher.match_value (vecDequeCollection T) (contain e) v
                = false))
    ∧ (∀ v : List T,
        (BeEmptyMatcher.match_value (linkedListCollection T) be_empty v = true
          ↔ v.length = 0)
        ∧ (BeEmptyMatcher.match_value (linkedListCollection T) be_empty v = true
            → ContainMatcher.match_value (linkedListCollection T) (contain e) v
                = false))
    ∧ (∀ v : HashSetM T,
        (BeEmptyMatcher.match_value (hashSetCollection T) be_empty v = true
          ↔ v.val.length = 0)
        ∧ (BeEmptyMatcher.match_value (hashSetCollection T) be_empty v = true
            → ContainMatcher.match_value (hashSetCollection T) (contain e) v
                = false))
    ∧ (∀ v : BTreeSetM S,
        (BeEmptyMatcher.match_value (btreeSetCollection S) be_empty v = true
          ↔ v.val.length = 0)
        ∧ (BeEmptyMatcher.match_value (btreeSetCollection S) be_empty v = true
            → ContainMatcher.match_value (btreeSetCollection S) (contain x) v
                = false)) :=
  ⟨fun _n _h v => list_empty_helper e v.val,
   fun v => list_empty_helper e v,
   fun v => list_empty_helper e v,
   fun v => list_empty_helper e v,
   fun v => list_empty_helper e v.val,
   fun v => list_empty_helper x v.val⟩

/-- Witness for C3: the empty 0-length array is matched by `be_empty` and not
by `contain 7`. -/
theorem be_empty_iff_no_elements_witness :
    (BeEmptyMatcher.match_value (arrayCollection Int 0 (by decide)) be_empty
        ⟨[], rfl⟩ = true ↔ ([] : List Int).length = 0)
    ∧ (BeEmptyMatcher.match_value (arrayCollection Int 0 (by decide)) be_empty
        ⟨[], rfl⟩ = true
        → ContainMatcher.match_value (arrayCollection Int 0 (by decide))
            (contain 7) ⟨[], rfl⟩ = false) :=
  (be_empty_iff_no_elements (S := Int) 7 7).1 0 (by decide) ⟨[], rfl⟩

/-- Claim C9: the Collection capability is provided for arrays of every
length 0 through 256 and for Vec, VecDeque, LinkedList, HashSet and BTreeSet;
each membership test agrees with the container's native contains operation
(membership among the elements) and each emptiness test agrees with the
container having zero elements. -/
theorem collection_capability_coverage {T S : Type} [DecidableEq T]
    [LinearOrder S] (e : T) (x : S) :
    (∀ (n : Nat) (h : n ≤ 256) (v : ArrayN T n),
        ((arrayCollection T n h).contains_element v e = v.val.contains e)
        ∧ ((arrayCollection T n h).empty v = true ↔ v.val.length = 0))
    ∧ (∀ v : List T,
        ((vecCollection T).contains_element v e = v.contains e)
        ∧ ((vecCollection T).empty v = true ↔ v.length = 0))
    ∧ (∀ v : List T,
        ((vecDequeCollection T).contains_element v e = v.contains e)
        ∧ ((vecDequeCollection T).empty v = true ↔ v.length = 0))
    ∧ (∀ v : List T,
        ((linkedListCollection T).contains_element v e = v.contains e)
        ∧ ((linkedListCollection T).empty v = true ↔ v.length = 0))
    ∧ (∀ v : HashSetM T,
        ((hashSetCollection T).contains_element v e = true ↔ e ∈ v.val)
        ∧ ((hashSetCollection T).empty v = true ↔ v.val.length = 0))
    ∧ (∀ v : BTreeSetM S,
        ((btreeSetCollection S).contains_element v x = true ↔ x ∈ v.val)
        ∧ ((btreeSetCollection S).empty v = true ↔ v.val.length = 0)) :=
  ⟨fun _n _h v => ⟨rfl, (list_empty_helper e v.val).1⟩,
   fun v => ⟨rfl, (list_empty_helper e v).1⟩,
   fun v => ⟨rfl, (list_empty_helper e v).1⟩,
   fun v => ⟨rfl, (list_empty_helper e v).1⟩,
   fun v => ⟨list_contains_iff e v.val, (list_empty_helper e v.val).1⟩,
   fun v => ⟨list_contains_iff x v.val, (list_empty_helper x v.val).1⟩⟩

set_option maxRecDepth 8000 in
/-- Witness for C9 at the boundary length 256. -/
theorem collection_capability_coverage_witness :
    ((arrayCollection Int 256 (by decide)).contains_element
        ⟨List.replicate 256 0, by simp⟩ 5
      = (List.replicate 256 (0 : Int)).contains 5)
    ∧ ((arrayCollection Int 256 (by decide)).empty
        ⟨List.replicate 256 0, by simp⟩ = true
      ↔ (List.replicate 256 (0 : Int)).length = 0) :=
  (collection_capability_coverage (S := Int) 5 5).1 256 (by decide)
    ⟨List.replicate 256 0, by simp⟩

/-- Helper: colon counting distributes over string append. -/
theorem colonCount_append (s t : String) :
    colonCount (s ++ t) = colonCount s + colonCount t := by
  simp [colonCount, String.data_append, List.count_append]

/-- Helper: any instance of the spec's two-slot positive template contains at
least the two colons of the template skeleton. -/
theorem colonCount_msgTemplate (a v e : String) :
    colonCount (msgTemplate a v e)
      = 2 + (colonCount a + colonCount v + colonCount e) := by
  have h1 : colonCount "\tExpected:\n\t\t" = 1 := by decide
  have h2 : colonCount "\n\tto " = 0 := by decide
  have h3 : colonCount ":\n\t\t" = 1 := by decide
  simp only [msgTemplate, colonCount_append, h1, h2, h3]
  omega

/-- Claim C5 counterexample: the `be_empty` positive failure message for the
one-element Vec `[42]` is `"\tExpected:\n\t\t[42]\n\tto be empty"`, which is
not an instance of the spec's template
`"\tExpected:\n\t\t<actual>\n\tto <verb-phrase>:\n\t\t<expected>"` for any
verb phrase and expected rendering (it has one colon, the template has at
least two). -/
theorem be_empty_message_escapes_template :
    (BeEmptyMatcher.failure_message (debugList debugInt) be_empty
        ([42] : List Int) = "\tExpected:\n\t\t[42]\n\tto be empty")
    ∧ ¬ ∃ (v e : String),
        BeEmptyMatcher.failure_message (debugList debugInt) be_empty
          ([42] : List Int) = msgTemplate "[42]" v e := by
  constructor
  · decide
  · rintro ⟨v, e, hmsg⟩
    have hc := congrArg colonCount hmsg
    rw [colonCount_msgTemplate] at hc
    have hone : colonCount (BeEmptyMatcher.failure_message
        (debugList debugInt) be_empty ([42] : List Int)) = 1 := by decide
    rw [hone] at hc
    omega

/-- Helper: merging two adjacent string literals inside an append chain. -/
theorem append_glue2 (p x q r s : String) (h : q ++ r = s) :
    p ++ x ++ q ++ r = p ++ x ++ s := by
  rw [String.append_assoc (p ++ x) q r, h]

/-- Helper: merging three adjacent string literals inside an append chain. -/
theorem append_glue3 (p x q r t y s : String) (h : q ++ r ++ t = s) :
    p ++ x ++ q ++ r ++ t ++ y = p ++ x ++ s ++ y := by
  rw [String.append_assoc (p ++ x) q r,
    String.append_assoc (p ++ x) (q ++ r) t, h]

/-- Claim C5 (amended): `equal` and `contain` — the dialect-A matchers that
carry an expected value — produce exactly the spec's two-slot templates, and
`equal "bar"` on subject `"foo"` produces exactly
`"\tExpected:\n\t\t\"foo\"\n\tto equal:\n\t\t\"bar\""`; but `be_empty` and
`be_none` carry no expected value and produce the shorter
`"\tExpected:\n\t\t<actual>\n\t(not )to <verb-phrase>"` form with no trailing
colon-plus-expected block. -/
theorem dialect_a_messages_follow_templates {E A T V : Type}
    (dA : A → String) (dE : E → String) (dV : V → String) (dT : T → String)
    (dO : Option T → String) (m : EqualMatcher E) (k : ContainMatcher T)
    (a : A) (v : V) (o : Option T) :
    (EqualMatcher.failure_message dA dE m a
      = msgTemplate (dA a) "equal" (dE m.expected))
    ∧ (EqualMatcher.negated_failure_message dA dE m a
      = negatedMsgTemplate (dA a) "equal" (dE m.expected))
    ∧ (ContainMatcher.failure_message dV dT k v
      = msgTemplate (dV v) "contain" (dT k.element))
    ∧ (ContainMatcher.negated_failure_message dV dT k v
      = negatedMsgTemplate (dV v) "contain" (dT k.element))
    ∧ (BeEmptyMatcher.failure_message dV be_empty v
      = msgTemplateNoExpected (dV v) "be empty")
    ∧ (BeEmptyMatcher.negated_failure_message dV be_empty v
      = negatedMsgTemplateNoExpected (dV v) "be empty")
    ∧ (NoneMatcher.failure_message dO be_none o
      = msgTemplateNoExpected (dO o) "be None")
    ∧ (NoneMatcher.negated_failure_message dO be_none o
      = negatedMsgTemplateNoExpected (dO o) "be None")
    ∧ (EqualMatcher.failure_message debugStr debugStr (equal "bar") "foo"
      = "\tExpected:\n\t\t\"foo\"\n\tto equal:\n\t\t\"bar\"") :=
  ⟨(append_glue3 "\tExpected:\n\t\t" (dA a) "\n\tto " "equal" ":\n\t\t"
      (dE m.expected) "\n\tto equal:\n\t\t" (by decide)).symm,
   (append_glue3 "\tExpected:\n\t\t" (dA a) "\n\tnot to " "equal" ":\n\t\t"
      (dE m.expected) "\n\tnot to equal:\n\t\t" (by decide)).symm,
   (append_glue3 "\tExpected:\n\t\t" (dV v) "\n\tto " "contain" ":\n\t\t"
      (dT k.element) "\n\tto contain:\n\t\t" (by decide)).symm,
   (append_glue3 "\tExpected:\n\t\t" (dV v) "\n\tnot to " "contain" ":\n\t\t"
      (dT k.element) "\n\tnot to contain:\n\t\t" (by decide)).symm,
   (append_glue2 "\tExpected:\n\t\t" (dV v) "\n\tto " "be empty"
      "\n\tto be empty" (by decide)).symm,
   (append_glue2 "\tExpected:\n\t\t" (dV v) "\n\tnot to " "be empty"
      "\n\tnot to be empty" (by decide)).symm,
   (append_glue2 "\tExpected:\n\t\t" (dO o) "\n\tto " "be None"
      "\n\tto be None" (by decide)).symm,
   (append_glue2 "\tExpected:\n\t\t" (dO o) "\n\tnot to " "be None"
      "\n\tnot to be None" (by decide)).symm,
   by decide⟩

/-- Claim C6 counterexample: the dialect-B `be_some` matcher attaches
different messages to the outcomes for subjects `Some("a")` and `Some("b")`,
so the message carried by the tagged outcome is not fixed at
matcher-construction time independently of the subject. -/
theorem be_some_message_depends_on_subject :
    SomeMatcher.match_value (debugOption debugStr) be_some (some "a")
      ≠ SomeMatcher.match_value (debugOption debugStr) be_some (some "b") := by
  decide

/-- Claim C6 (amended): for the `be_some` matcher, only the `NotMatched`
branch carries a fixed message (`"expected None to be a Some"`); the
`Matched` branch's message embeds the subject's debug representation computed
at evaluation time, so the two branches carry different messages and the
`Matched` message depends on the subject. -/
theorem be_some_branch_messages {T : Type} (d : Option T → String)
    (o : Option T) :
    (o.isSome = true →
      SomeMatcher.match_value d be_some o
        = Match.Matched ("expected " ++ d o ++ " not to be a Some"))
    ∧ (o.isSome = false →
      SomeMatcher.match_value d be_some o
        = Match.NotMatched "expected None to be a Some") := by
  cases o <;> simp [SomeMatcher.match_value, be_some]

/-- Witness for the amended C6 on the subject `Some("x")`. -/
theorem be_some_branch_messages_witness :
    SomeMatcher.match_value (debugOption debugStr) be_some (some "x")
      = Match.Matched ("expected " ++ debugOption debugStr (some "x")
          ++ " not to be a Some") :=
  (be_some_branch_messages (debugOption debugStr) (some "x")).1 rfl

end Expect
